import Mathlib

/-!
Verification development for the proxy-v6 repository.

The repository runs one tinyproxy process per public IPv6 address of a host
(internal/proxy, the instance manager), aggregates per-host reports in a
coordinator (cmd/monitor), and load-balances client traffic across all
running instances (internal/loadbalancer).

This file gives a shallow embedding of the pure core of that code:
  - the data model of pkg/models (ProxyStatus, ProxyInstance, NodeInfo);
  - the instance manager state (Manager) with getNextPort, StartProxy,
    StopProxy, GetInstances and the process watcher's demotion step;
  - the load balancer (UpdateProxies, GetNextProxy) and the CONNECT
    handshake decision of handleConnect, including the repository's own
    `contains` substring function;
  - the coordinator's stale-node sweep;
  - the IPv6 classifier isPublicIPv6 together with the Go net.IP
    predicates it calls (To4, IsLoopback, IsLinkLocalUnicast,
    IsLinkLocalMulticast, IsPrivate), on 16-byte addresses as byte lists.

Side effects (file writes, process spawning, TCP dialing, sleeps) are
modelled by an explicit environment record StartEnv whose boolean fields
record the outcome the runtime would observe; all state-mutating methods
become state-passing functions. Machine integers: ports are small ints,
modelled as Nat; the round-robin counter is a uint64 and is modelled as a
Nat reduced mod 2^64 exactly where the Go code wraps.
-/

namespace ProxyV6

/-- Lifecycle status of a proxy instance (pkg/models ProxyStatus:
"starting", "running", "stopped", "error"). -/
inductive ProxyStatus where
  | starting
  | running
  | stopped
  | error
  deriving DecidableEq

/-- Metrics carried by an instance (pkg/models ProxyMetrics). The manager
never computes with these; the float64 response time is carried as an
opaque integer field. -/
structure ProxyMetrics where
  requestsTotal : Int
  bytesTransmitted : Int
  errorCount : Int
  lastRequest : Nat
  responseTimeMs : Int
  deriving DecidableEq

/-- Zero value of ProxyMetrics, the Go literal models.ProxyMetrics\x7b\x7d. -/
def emptyMetrics : ProxyMetrics :=
  { requestsTotal := 0, bytesTransmitted := 0, errorCount := 0
    lastRequest := 0, responseTimeMs := 0 }

/-- Discovered IPv6 address (pkg/models IPv6Address). The manager only ever
uses the textual form IP.String(), so the address is carried as a string
here; the classifier below works on the byte-level form instead. -/
structure IPv6Address where
  ip : String
  iface : String
  isPublic : Bool
  createdAt : Nat
  deriving DecidableEq

/-- Instance id. In Go this is the string fmt.Sprintf("%s-%d", ip, port);
that formatting is injective in the (ip, port) pair because the decimal
port numeral contains no dash, so the id is modelled as the pair itself. -/
abbrev InstanceId := String × Nat

/-- One managed proxy instance (pkg/models ProxyInstance). -/
structure ProxyInstance where
  id : InstanceId
  ipv6 : IPv6Address
  port : Nat
  status : ProxyStatus
  startedAt : Nat
  lastChecked : Nat
  metrics : ProxyMetrics
  deriving DecidableEq

/-- Association-list lookup, the read of a Go map. -/
def mapLookup {α β : Type} [DecidableEq α] (k : α) : List (α × β) → Option β
  | [] => none
  | (k2, v) :: rest => if k = k2 then some v else mapLookup k rest

/-- Association-list insert, the write m[k] = v of a Go map: the binding
for k is replaced if present, added otherwise. -/
def mapInsert {α β : Type} [DecidableEq α] (k : α) (v : β) (l : List (α × β)) :
    List (α × β) :=
  (k, v) :: l.filter (fun p => decide (p.1 ≠ k))

/-- Instance manager state (internal/proxy Manager). The processes map
stores exec.Cmd handles keyed by instance id; only the key set is
observable in the model. The logger is omitted. -/
structure Manager where
  instances : List (InstanceId × ProxyInstance)
  startPort : Nat
  endPort : Nat
  currentPort : Nat
  processes : List InstanceId
  allowedIPs : List String
  proxyMode : String
  deriving DecidableEq

/-- Constructor NewManager: empty tables, cursor at the low end of the
configured port range, open access mode. -/
def NewManager (startPort endPort : Nat) : Manager :=
  { instances := [], startPort := startPort, endPort := endPort
    currentPort := startPort, processes := [], allowedIPs := []
    proxyMode := "open" }

/-- Inner loop of getNextPort: true when some instance whose status is
Running currently holds port i. -/
def portInUse (m : Manager) (i : Nat) : Bool :=
  m.instances.any fun pr => pr.2.port == i && pr.2.status == ProxyStatus.running

/-- One scan of getNextPort: the first port in the candidate list not held
by a Running instance. -/
def findFreeFrom (m : Manager) : List Nat → Option Nat
  | [] => none
  | i :: rest => if portInUse m i then findFreeFrom m rest else some i

/-- Port allocator Manager.getNextPort: scan from the cursor to the top of
the range, then wrap and scan from the bottom of the range up to the
cursor; on success advance the cursor past the returned port, on failure
return the sentinel port 0 with the state untouched. -/
def Manager.getNextPort (m : Manager) : Nat × Manager :=
  match findFreeFrom m (List.range' m.currentPort (m.endPort + 1 - m.currentPort)) with
  | some i => (i, { m with currentPort := i + 1 })
  | none =>
    match findFreeFrom m (List.range' m.startPort (m.currentPort - m.startPort)) with
    | some i => (i, { m with currentPort := i + 1 })
    | none => (0, m)

/-- Failures of StartProxy, in the order the code can produce them. -/
inductive StartErr where
  | noAvailablePorts
  | configWriteFailed
  | spawnFailed
  | processDied
  deriving DecidableEq

/-- Environment outcomes observed by one StartProxy call: whether the
config file write succeeds, whether cmd.Start succeeds, and for each
retry attempt i whether the process is still alive and whether the TCP
health probe connects. -/
structure StartEnv where
  configWriteOk : Bool
  spawnOk : Bool
  alive : Nat → Bool
  healthy : Nat → Bool
  now : Nat

/-- Retry budget of the startup-verification loop (retries := 5). -/
def retries : Nat := 5

/-- Startup-verification loop body over the remaining attempt indices:
a dead process yields (Error, processDied error); a successful probe
yields (Running, nil); a failed probe on the last attempt yields
(Error, nil) because the code only logs there and falls through to
`return instance, nil`; otherwise retry. -/
def verifyAttempts (env : StartEnv) : List Nat → ProxyStatus × Option StartErr
  | [] => (ProxyStatus.starting, none)
  | i :: rest =>
    if env.alive i = false then (ProxyStatus.error, some StartErr.processDied)
    else if env.healthy i = true then (ProxyStatus.running, none)
    else if i = retries - 1 then (ProxyStatus.error, none)
    else verifyAttempts env rest

/-- Whole startup-verification loop: attempts 0 .. retries-1. -/
def verifyRun (env : StartEnv) : ProxyStatus × Option StartErr :=
  verifyAttempts env (List.range retries)

/-- Manager.StartProxy: allocate a port (failing with the sentinel when
none is free), write the tinyproxy config, spawn the daemon, register the
instance (initially Starting) and its process, then run the verification
loop which fixes the final status. Returns the updated state, the
instance pointer the caller receives (none on the three early failures)
and the returned error. -/
def Manager.StartProxy (m : Manager) (env : StartEnv) (ipv6 : IPv6Address) :
    Manager × Option ProxyInstance × Option StartErr :=
  let pm := m.getNextPort
  let port := pm.1
  let m1 := pm.2
  if port = 0 then (m1, none, some StartErr.noAvailablePorts)
  else
    let instanceID : InstanceId := (ipv6.ip, port)
    if env.configWriteOk = false then (m1, none, some StartErr.configWriteFailed)
    else if env.spawnOk = false then (m1, none, some StartErr.spawnFailed)
    else
      let ver := verifyRun env
      let inst : ProxyInstance :=
        { id := instanceID, ipv6 := ipv6, port := port, status := ver.1
          startedAt := env.now, lastChecked := env.now, metrics := emptyMetrics }
      let m2 : Manager :=
        { m1 with instances := mapInsert instanceID inst m1.instances
                  processes := instanceID :: m1.processes.filter (fun k => decide (k ≠ instanceID)) }
      (m2, some inst, ver.2)

/-- Failure of StopProxy ("proxy instance not found"). -/
inductive StopErr where
  | instanceNotFound
  deriving DecidableEq

/-- Manager.StopProxy: unknown ids fail before any mutation; known ids
get their process killed and removed from the process table, and the
instance is marked Stopped. The instance itself stays in the table. -/
def Manager.StopProxy (m : Manager) (instanceID : InstanceId) : Manager × Option StopErr :=
  match mapLookup instanceID m.instances with
  | none => (m, some StopErr.instanceNotFound)
  | some inst =>
    let procs :=
      if instanceID ∈ m.processes then
        m.processes.filter (fun k => decide (k ≠ instanceID))
      else m.processes
    ({ m with processes := procs
              instances := mapInsert instanceID { inst with status := ProxyStatus.stopped } m.instances },
     none)

/-- Manager.GetInstances: a snapshot of value copies of every instance
regardless of status. -/
def Manager.GetInstances (m : Manager) : List ProxyInstance :=
  m.instances.map (fun pr => pr.2)

/-- Post-exit step of the watcher goroutine monitorProcess, run once
cmd.Wait returns: demote the instance to Error if it was still Running,
and drop the process-table entry. Nothing is removed from the instance
table. -/
def Manager.monitorProcessExit (m : Manager) (instanceID : InstanceId) : Manager :=
  let insts :=
    match mapLookup instanceID m.instances with
    | some inst =>
      if inst.status = ProxyStatus.running then
        mapInsert instanceID { inst with status := ProxyStatus.error } m.instances
      else m.instances
    | none => m.instances
  { m with instances := insts
           processes := m.processes.filter (fun k => decide (k ≠ instanceID)) }

/-- One host's report (pkg/models NodeInfo). -/
structure NodeInfo where
  nodeID : String
  hostname : String
  region : String
  proxies : List ProxyInstance
  updatedAt : Nat
  deriving DecidableEq

/-- Load balancer's view of one upstream (internal/loadbalancer
ProxyEndpoint). -/
structure ProxyEndpoint where
  nodeID : String
  address : String
  healthy : Bool
  lastCheck : Nat
  deriving DecidableEq

/-- Load balancer state (internal/loadbalancer LoadBalancer): the current
endpoint list and the shared uint64 round-robin counter. Logger, HTTP
client and health-check ticker are runtime plumbing and carry no state
the pure logic reads. -/
structure LoadBalancer where
  proxies : List ProxyEndpoint
  roundRobin : Nat
  deriving DecidableEq

/-- Modulus of the uint64 round-robin counter. -/
def UINT64MOD : Nat := 2 ^ 64

/-- Failures of GetNextProxy. -/
inductive LBErr where
  | noProxiesAvailable
  | noHealthyProxiesAvailable
  deriving DecidableEq

/-- Dial address of an endpoint built by UpdateProxies:
fmt.Sprintf("[%s]:%d", ip, port). -/
def endpointAddress (inst : ProxyInstance) : String :=
  "[" ++ inst.ipv6.ip ++ "]:" ++ toString inst.port

/-- LoadBalancer.UpdateProxies: rebuild the endpoint list from scratch,
one endpoint per instance in Running status across all node reports,
each marked healthy with lastCheck set to now; the previous list is
discarded wholesale. -/
def LoadBalancer.UpdateProxies (lb : LoadBalancer) (now : Nat) (nodes : List NodeInfo) :
    LoadBalancer :=
  let newProxies := nodes.flatMap fun node =>
    node.proxies.filterMap fun proxy =>
      if proxy.status = ProxyStatus.running then
        some { nodeID := node.nodeID, address := endpointAddress proxy
               healthy := true, lastCheck := now }
      else none
  { lb with proxies := newProxies }

/-- LoadBalancer.GetNextProxy: fail when the endpoint list is empty, else
filter to the healthy subset, fail when that is empty, else fetch-and-add
the uint64 counter and index the healthy subset by the old counter value
mod its length. currentIndex is written exactly as the Go expression
atomic.AddUint64(c, 1) - 1 computes it in uint64 arithmetic. -/
def LoadBalancer.GetNextProxy (lb : LoadBalancer) :
    LoadBalancer × Option ProxyEndpoint × Option LBErr :=
  if lb.proxies.length = 0 then (lb, none, some LBErr.noProxiesAvailable)
  else
    let healthyProxies := lb.proxies.filter (fun p => p.healthy)
    if healthyProxies.length = 0 then (lb, none, some LBErr.noHealthyProxiesAvailable)
    else
      let newCounter := (lb.roundRobin + 1) % UINT64MOD
      let currentIndex := (newCounter + (UINT64MOD - 1)) % UINT64MOD
      let index := currentIndex % healthyProxies.length
      ({ lb with roundRobin := newCounter }, healthyProxies[index]?, none)

/-- Sequence of endpoints produced by n consecutive GetNextProxy calls. -/
def pickSeq (lb : LoadBalancer) : Nat → List (Option ProxyEndpoint)
  | 0 => []
  | Nat.succ n => lb.GetNextProxy.2.1 :: pickSeq lb.GetNextProxy.1 n

/-- Staleness threshold of the coordinator sweep, 2*time.Minute in
seconds (cmd/monitor cleanupStaleNodes). Times are Nat seconds; Go's
signed duration comparison now.Sub(t) > 120s and the truncated Nat
subtraction agree on retention for future-dated reports. -/
def staleThresholdSeconds : Nat := 120

/-- One tick of cleanupStaleNodes: delete every node whose report age
exceeds the threshold, keep the rest. -/
def cleanupStaleTick (now : Nat) (nodes : List (String × NodeInfo)) :
    List (String × NodeInfo) :=
  nodes.filter fun p => !(decide (now - p.2.updatedAt > staleThresholdSeconds))

/-- Go bytes of the CONNECT target "200" literal. Go indexes the reply by
bytes; the replies involved are ASCII so Char works byte-for-byte. -/
def s200 : List Char := ['2', '0', '0']

/-- The repository's own substring test (internal/loadbalancer contains):
s begins with substr, or s is longer than substr and its tail contains
substr. This is containment anywhere in s, not a prefix test. -/
def containsGo (s substr : List Char) : Bool :=
  match s with
  | [] => decide (substr.length ≤ 0) && (List.take substr.length [] == substr)
  | _ :: rest =>
    (decide (substr.length ≤ s.length) && (s.take substr.length == substr))
      || (decide (substr.length < s.length) && containsGo rest substr)

/-- Outcome of handleConnect for one CONNECT request, in the order the
code can reach them. Only the tunnel outcome hijacks the client's
connection. -/
inductive ConnectOutcome where
  | dialFailed502
  | writeFailed502
  | readFailed502
  | rejected502
  | hijackFailed500
  | tunnel
  deriving DecidableEq

/-- True exactly for the outcome in which the client connection has been
hijacked and the tunnel runs. -/
def ConnectOutcome.hijacksClient : ConnectOutcome → Bool
  | ConnectOutcome.tunnel => true
  | _ => false

/-- HTTP status written back to the caller, none once the tunnel owns the
socket. -/
def ConnectOutcome.statusCode : ConnectOutcome → Option Nat
  | ConnectOutcome.dialFailed502 => some 502
  | ConnectOutcome.writeFailed502 => some 502
  | ConnectOutcome.readFailed502 => some 502
  | ConnectOutcome.rejected502 => some 502
  | ConnectOutcome.hijackFailed500 => some 500
  | ConnectOutcome.tunnel => none

/-- Decision structure of LoadBalancer.handleConnect: dial the upstream
proxy, send the CONNECT line, read one reply buffer; if the reply does
not contain "200" (per the contains function above) answer 502 without
touching the client socket; otherwise hijack the client connection and
start the bidirectional copy. dialOk, writeOk, readOk and hijackOk are
the outcomes of the corresponding runtime steps, response is the reply
buffer that was read. -/
def handleConnect (dialOk writeOk readOk : Bool) (response : List Char)
    (hijackOk : Bool) : ConnectOutcome :=
  if dialOk = false then ConnectOutcome.dialFailed502
  else if writeOk = false then ConnectOutcome.writeFailed502
  else if readOk = false then ConnectOutcome.readFailed502
  else if !(containsGo response s200) then ConnectOutcome.rejected502
  else if hijackOk = false then ConnectOutcome.hijackFailed500
  else ConnectOutcome.tunnel

/-- Byte form of the IPv6 loopback address, net.IPv6loopback. -/
def IPv6loopback : List Nat := [0, 0, 0, 0, 0, 0, 0, 0, 0, 0, 0, 0, 0, 0, 0, 1]

/-- Go net isZeros on a byte list. -/
def isZeros (l : List Nat) : Bool := l.all (fun b => b == 0)

/-- Go net.IP.To4: a 4-byte address as is, a 16-byte IPv4-mapped address
(::ffff:a.b.c.d) as its last four bytes, otherwise nil. -/
def ipTo4 (ip : List Nat) : Option (List Nat) :=
  if ip.length = 4 then some ip
  else if ip.length = 16 && isZeros (ip.take 10)
      && ip.getD 10 0 == 0xff && ip.getD 11 0 == 0xff then
    some (ip.drop 12)
  else none

/-- Go net.IP.IsLoopback. -/
def ipIsLoopback (ip : List Nat) : Bool :=
  match ipTo4 ip with
  | some ip4 => ip4.getD 0 0 == 127
  | none => ip == IPv6loopback

/-- Go net.IP.IsLinkLocalUnicast. -/
def ipIsLinkLocalUnicast (ip : List Nat) : Bool :=
  match ipTo4 ip with
  | some ip4 => ip4.getD 0 0 == 169 && ip4.getD 1 0 == 254
  | none =>
    ip.length == 16 && ip.getD 0 0 == 0xfe && ((ip.getD 1 0) &&& 0xc0) == 0x80

/-- Go net.IP.IsLinkLocalMulticast. -/
def ipIsLinkLocalMulticast (ip : List Nat) : Bool :=
  match ipTo4 ip with
  | some ip4 => ip4.getD 0 0 == 224 && ip4.getD 1 0 == 0 && ip4.getD 2 0 == 0
  | none =>
    ip.length == 16 && ip.getD 0 0 == 0xff && ((ip.getD 1 0) &&& 0x0f) == 0x02

/-- Go net.IP.IsPrivate (RFC 1918 for IPv4, fc00::/7 for IPv6). -/
def ipIsPrivate (ip : List Nat) : Bool :=
  match ipTo4 ip with
  | some ip4 =>
    ip4.getD 0 0 == 10
      || (ip4.getD 0 0 == 172 && ((ip4.getD 1 0) &&& 0xf0) == 16)
      || (ip4.getD 0 0 == 192 && ip4.getD 1 0 == 168)
  | none => ip.length == 16 && ((ip.getD 0 0) &&& 0xfe) == 0xfc

/-- The classifier's predicate Scanner.isPublicIPv6 (internal/ipscanner):
reject loopback, link-local unicast and multicast, platform-private,
fe80::/10 and fec0::/10 (checked again byte-wise), and fc00::/7 via the
fc / fd first-byte test; accept everything else. -/
def isPublicIPv6 (ip : List Nat) : Bool :=
  if ipIsLoopback ip || ipIsLinkLocalUnicast ip || ipIsLinkLocalMulticast ip then false
  else if ipIsPrivate ip then false
  else if ip.length == 16 && ip.getD 0 0 == 0xfe && ((ip.getD 1 0) &&& 0xc0) == 0x80 then false
  else if ip.length == 16 && ip.getD 0 0 == 0xfe && ((ip.getD 1 0) &&& 0xc0) == 0xc0 then false
  else if (ip.length == 16 && ip.getD 0 0 == 0xfc) || ip.getD 0 0 == 0xfd then false
  else true

/-! Concrete fixtures used by witnesses and counterexamples. -/

/-- Environment of a fully successful StartProxy call: config written,
daemon spawned, process alive and probe reachable on every attempt. -/
def envGood : StartEnv :=
  { configWriteOk := true, spawnOk := true, alive := fun _ => true
    healthy := fun _ => true, now := 0 }

/-- Environment in which the daemon stays alive but the TCP probe never
connects within the retry budget. -/
def envNeverHealthy : StartEnv :=
  { configWriteOk := true, spawnOk := true, alive := fun _ => true
    healthy := fun _ => false, now := 0 }

/-- Environment in which the tinyproxy config file cannot be written. -/
def envNoConfig : StartEnv :=
  { configWriteOk := false, spawnOk := true, alive := fun _ => true
    healthy := fun _ => true, now := 0 }

/-- A discovered public address used by the fixtures. -/
def addr1 : IPv6Address :=
  { ip := "2001:db8::1", iface := "eth0", isPublic := true, createdAt := 0 }

/-- Property sequence: per-call environments that always succeed. -/
def envsGood : Nat → StartEnv := fun _ => envGood

/-- Property sequence: the same address for every call. -/
def addrsConst : Nat → IPv6Address := fun _ => addr1

/-- Upstream CONNECT reply whose status code is 403 but whose body text
happens to contain the three bytes "200". -/
def reply403 : List Char := String.toList "HTTP/1.1 403 Forbidden len=200"

/-- Upstream CONNECT reply with no occurrence of "200" at all. -/
def reply404 : List Char := String.toList "HTTP/1.0 404 Not Found"

/-- Spec-side reading of "the reply begins with a 200 status", for
comparison with the code's contains check: either the reply literally
starts with "200", or the status-code field of the status line (the
second space-separated token) starts with "200". -/
def specReplyBeginsWith200 (response : List Char) : Bool :=
  (response.take 3 == s200) || (((response.splitOn ' ').getD 1 []).take 3 == s200)

/-- Healthy endpoint fixtures A, B, C of the round-robin property. -/
def epA : ProxyEndpoint :=
  { nodeID := "n1", address := "[2001:db8::a]:10000", healthy := true, lastCheck := 0 }

/-- Second endpoint of the round-robin fixture. -/
def epB : ProxyEndpoint :=
  { nodeID := "n2", address := "[2001:db8::b]:10000", healthy := true, lastCheck := 0 }

/-- Third endpoint of the round-robin fixture. -/
def epC : ProxyEndpoint :=
  { nodeID := "n3", address := "[2001:db8::c]:10000", healthy := true, lastCheck := 0 }

/-- Load balancer holding endpoints A, B, C with the counter at 0. -/
def lbABC : LoadBalancer := { proxies := [epA, epB, epC], roundRobin := 0 }

/-- Node report fixture with a given report timestamp. -/
def nodeAged (u : Nat) : NodeInfo :=
  { nodeID := "node", hostname := "host", region := "r", proxies := [], updatedAt := u }

/-- Running instance fixture held by the stop counterexample manager. -/
def instRunning : ProxyInstance :=
  { id := ("2001:db8::1", 10000), ipv6 := addr1, port := 10000
    status := ProxyStatus.running, startedAt := 0, lastChecked := 0, metrics := emptyMetrics }

/-- Manager holding one Running instance and its live process. -/
def mgrOneRunning : Manager :=
  { instances := [(("2001:db8::1", 10000), instRunning)]
    startPort := 10000, endPort := 10002, currentPort := 10001
    processes := [("2001:db8::1", 10000)], allowedIPs := [], proxyMode := "open" }

/-- Crashed (Error status) instance on port 1 of the range [1,1]. -/
def instCrashed : ProxyInstance :=
  { id := ("2001:db8::1", 1), ipv6 := addr1, port := 1
    status := ProxyStatus.error, startedAt := 0, lastChecked := 0, metrics := emptyMetrics }

/-- Manager whose only port is held by a crashed instance, cursor wrapped. -/
def mgrCrashed : Manager :=
  { instances := [(("2001:db8::1", 1), instCrashed)]
    startPort := 1, endPort := 1, currentPort := 2
    processes := [], allowedIPs := [], proxyMode := "open" }

/-- Byte form of fe80::1. -/
def addrFe80 : List Nat := [0xfe, 0x80, 0, 0, 0, 0, 0, 0, 0, 0, 0, 0, 0, 0, 0, 1]

/-- Byte form of fc00::1. -/
def addrFc00 : List Nat := [0xfc, 0, 0, 0, 0, 0, 0, 0, 0, 0, 0, 0, 0, 0, 0, 1]

/-- Byte form of 2604:a880:cad:d0::1. -/
def addrPub : List Nat := [0x26, 0x04, 0xa8, 0x80, 0x0c, 0xad, 0x00, 0xd0, 0, 0, 0, 0, 0, 0, 0, 1]

/-- One StartProxy call counts as a clean start when the config write and
the spawn succeed and the verification loop ends in Running with no
error (no-stop allocation sequences are built from such calls). -/
def goodStart (env : StartEnv) : Prop :=
  env.configWriteOk = true ∧ env.spawnOk = true ∧
  verifyRun env = (ProxyStatus.running, none)

/-- State after k consecutive StartProxy calls on a fresh manager with
range [s, e], the k-th call using environment envs k and address
addrs k. -/
def iterStart (s e : Nat) (envs : Nat → StartEnv) (addrs : Nat → IPv6Address) :
    Nat → Manager
  | 0 => NewManager s e
  | Nat.succ k => ((iterStart s e envs addrs k).StartProxy (envs k) (addrs k)).1

/-- Invariant of the allocation run after k clean starts on range [s, e]:
the bounds are intact, the cursor sits at s + k, every port below the
cursor is held by a Running instance, and every table entry holds a port
below the cursor, carries its port in its key, and is Running. -/
def AllocInv (s e k : Nat) (m : Manager) : Prop :=
  m.startPort = s ∧ m.endPort = e ∧ m.currentPort = s + k ∧
  (∀ p, s ≤ p → p < s + k → portInUse m p = true) ∧
  (∀ pr ∈ m.instances,
      pr.2.port < s + k ∧ pr.1.2 = pr.2.port ∧ pr.2.status = ProxyStatus.running)

/-! Helper lemmas about the association-list map operations. -/

/-- Looking up the key just inserted yields the inserted value. -/
theorem mapLookup_insert_self {α β : Type} [DecidableEq α] (k : α) (v : β)
    (l : List (α × β)) : mapLookup k (mapInsert k v l) = some v := by
  simp [mapInsert, mapLookup]

/-- Filtering away one key leaves lookups of any other key unchanged. -/
theorem mapLookup_filter_ne {α β : Type} [DecidableEq α] (k k2 : α) (h : k2 ≠ k)
    (l : List (α × β)) :
    mapLookup k2 (l.filter fun p => !decide (p.1 = k)) = mapLookup k2 l := by
  induction l with
  | nil => rfl
  | cons p rest ih =>
    obtain ⟨pk, pv⟩ := p
    by_cases hp : pk = k
    · have hne : k2 ≠ pk := by rw [hp]; exact h
      simp [List.filter_cons, hp, mapLookup, hne, h, ih]
    · by_cases hk2 : k2 = pk
      · simp [List.filter_cons, hp, mapLookup, hk2]
      · simp [List.filter_cons, hp, mapLookup, hk2, ih]

/-- Inserting one key leaves lookups of any other key unchanged. -/
theorem mapLookup_insert_ne {α β : Type} [DecidableEq α] (k k2 : α) (v : β)
    (l : List (α × β)) (h : k2 ≠ k) :
    mapLookup k2 (mapInsert k v l) = mapLookup k2 l := by
  simp only [mapInsert, mapLookup, ne_eq, decide_not, if_neg h]
  exact mapLookup_filter_ne k k2 h l

/-- A successful lookup produces a member of the value list. -/
theorem mapLookup_mem_values {α β : Type} [DecidableEq α] (k : α) (v : β) :
    ∀ l : List (α × β), mapLookup k l = some v → v ∈ l.map (fun p => p.2) := by
  intro l
  induction l with
  | nil => intro h; simp [mapLookup] at h
  | cons p rest ih =>
    obtain ⟨pk, pv⟩ := p
    intro h
    rw [mapLookup] at h
    by_cases hk : k = pk
    · rw [if_pos hk] at h
      simp at h
      simp [h]
    · rw [if_neg hk] at h
      simp [ih h]

/-- An if-then-else returning false in its then branch is false whenever
its else branch is, whatever the condition. -/
theorem ite_false_right {c : Prop} [Decidable c] {a : Bool} (h : a = false) :
    (if c then false else a) = false := by
  split
  · rfl
  · exact h

/-- The allocator touches only the cursor: both scan outcomes leave the
instance table, process table and range bounds as they were. -/
theorem getNextPort_frame (m : Manager) :
    (m.getNextPort).2.instances = m.instances ∧
    (m.getNextPort).2.processes = m.processes ∧
    (m.getNextPort).2.startPort = m.startPort ∧
    (m.getNextPort).2.endPort = m.endPort := by
  unfold Manager.getNextPort
  cases findFreeFrom m (List.range' m.currentPort (m.endPort + 1 - m.currentPort)) with
  | some i => exact ⟨rfl, rfl, rfl, rfl⟩
  | none =>
    cases findFreeFrom m (List.range' m.startPort (m.currentPort - m.startPort)) with
    | some i => exact ⟨rfl, rfl, rfl, rfl⟩
    | none => exact ⟨rfl, rfl, rfl, rfl⟩

/-- Claim C8: StopProxy on an id absent from the instance table returns
the UnknownInstance failure and returns the state exactly as it was:
instance table, process table and allocation cursor are untouched. -/
theorem stopProxy_unknown_id (m : Manager) (instId : InstanceId)
    (h : mapLookup instId m.instances = none) :
    m.StopProxy instId = (m, some StopErr.instanceNotFound) := by
  unfold Manager.StopProxy
  rw [h]

/-- Claim C8 witness: stopping a never-created id on a fresh manager. -/
theorem stopProxy_unknown_id_witness :
    mapLookup ("2001:db8::1", 10000) (NewManager 10000 10002).instances = none ∧
    (NewManager 10000 10002).StopProxy ("2001:db8::1", 10000)
      = (NewManager 10000 10002, some StopErr.instanceNotFound) :=
  ⟨rfl, stopProxy_unknown_id _ _ rfl⟩

/-- Claim C9: a registry entry survives a sweep tick exactly when its age
(now minus report timestamp) does not exceed the 120-second staleness
threshold; concretely, with now = 1000 a node reported at 850 (age 150)
is removed while a node reported at 970 (age 30) is retained. -/
theorem cleanupStale_retention :
    (∀ (now : Nat) (nodes : List (String × NodeInfo)) (entry : String × NodeInfo),
        entry ∈ nodes →
        (entry ∈ cleanupStaleTick now nodes ↔
          now - entry.2.updatedAt ≤ staleThresholdSeconds)) ∧
    cleanupStaleTick 1000 [("stale", nodeAged 850), ("fresh", nodeAged 970)]
      = [("fresh", nodeAged 970)] := by
  constructor
  · intro now nodes entry hmem
    simp [cleanupStaleTick, List.mem_filter, hmem, Nat.not_lt]
  · decide

/-- Claim C9 witness: the general retention criterion applied to the
fresh node of the concrete sweep. -/
theorem cleanupStale_retention_witness :
    ("fresh", nodeAged 970)
        ∈ cleanupStaleTick 1000 [("stale", nodeAged 850), ("fresh", nodeAged 970)] ↔
      1000 - ("fresh", nodeAged 970).2.updatedAt ≤ staleThresholdSeconds :=
  cleanupStale_retention.1 1000 [("stale", nodeAged 850), ("fresh", nodeAged 970)]
    ("fresh", nodeAged 970) (by decide)

/-- Claim C10: when StartProxy fails before the daemon is registered —
the config file cannot be written, or the spawn itself fails — it
returns no instance together with the corresponding error, and the
resulting state has the instance and process tables of the original
manager; only the allocation cursor (already advanced by getNextPort)
differs. -/
theorem startProxy_early_failure_noRegistration (m : Manager) (env : StartEnv)
    (a : IPv6Address) (hp : (m.getNextPort).1 ≠ 0) :
    (env.configWriteOk = false →
        m.StartProxy env a = ((m.getNextPort).2, none, some StartErr.configWriteFailed)) ∧
    (env.configWriteOk = true → env.spawnOk = false →
        m.StartProxy env a = ((m.getNextPort).2, none, some StartErr.spawnFailed)) ∧
    (m.getNextPort).2.instances = m.instances ∧
    (m.getNextPort).2.processes = m.processes := by
  refine ⟨?_, ?_, (getNextPort_frame m).1, (getNextPort_frame m).2.1⟩
  · intro hcw
    simp [Manager.StartProxy, hp, hcw]
  · intro hcw hsp
    simp [Manager.StartProxy, hp, hcw, hsp]

/-- Claim C10 witness: a failed config write on a fresh manager registers
nothing. -/
theorem startProxy_early_failure_noRegistration_witness :
    (NewManager 10000 10002).StartProxy envNoConfig addr1
      = (((NewManager 10000 10002).getNextPort).2, none, some StartErr.configWriteFailed) :=
  (startProxy_early_failure_noRegistration (NewManager 10000 10002) envNoConfig addr1
      (by decide)).1 rfl

/-- Claim C7: the classifier maps fe80::1, fc00::1 and ::1 to non-public
and 2604:a880:cad:d0::1 to public; and on every 16-byte address that is
not IPv4-mapped (the only inputs the scanner feeds it), isPublicIPv6
rejects exactly the loopback address, fe80::/10, the ff02 link-local
multicast block, fc00::/7 (the platform-private range) and the site-local
fec0::/10 block, accepting everything else. -/
theorem isPublicIPv6_classification :
    (isPublicIPv6 addrFe80 = false ∧ isPublicIPv6 addrFc00 = false ∧
     isPublicIPv6 IPv6loopback = false ∧ isPublicIPv6 addrPub = true) ∧
    (∀ ip : List Nat, ip.length = 16 → ipTo4 ip = none →
      (isPublicIPv6 ip = false ↔
        ip = IPv6loopback
          ∨ (ip.getD 0 0 = 0xfe ∧ (ip.getD 1 0) &&& 0xc0 = 0x80)
          ∨ (ip.getD 0 0 = 0xff ∧ (ip.getD 1 0) &&& 0x0f = 0x02)
          ∨ ((ip.getD 0 0) &&& 0xfe = 0xfc)
          ∨ (ip.getD 0 0 = 0xfe ∧ (ip.getD 1 0) &&& 0xc0 = 0xc0))) := by
  refine ⟨⟨by decide, by decide, by decide, by decide⟩, ?_⟩
  intro ip hlen hto4
  rcases ip with _ | ⟨b0, ip1⟩
  · simp at hlen
  rcases ip1 with _ | ⟨b1, rest⟩
  · simp at hlen
  have hlen14 : rest.length = 14 := by
    simp only [List.length_cons] at hlen
    omega
  have hpv255 : ¬((255 : Nat) &&& 254 = 252) := by decide
  simp only [isPublicIPv6, ipIsLoopback, ipIsLinkLocalUnicast, ipIsLinkLocalMulticast,
    ipIsPrivate, hto4, List.getD_cons_zero, List.getD_cons_succ]
  constructor
  · intro h
    by_contra hn
    push_neg at hn
    obtain ⟨hn1, hn2, hn3, hn4, hn5⟩ := hn
    have h252 : b0 ≠ 0xfc := fun hh => hn4 (by rw [hh]; decide)
    have h253 : b0 ≠ 0xfd := fun hh => hn4 (by rw [hh]; decide)
    by_cases hB : b0 = 0xfe <;> by_cases hD : b0 = 0xff
    · rw [hD] at hB
      exact absurd hB (by decide)
    · have hC2 := hn2 hB
      have hG2 := hn5 hB
      simp [hlen, IPv6loopback, hB, hD, hC2, hG2, hn4, h252, h253] at h
    · have hE2 := hn3 hD
      simp [hlen, hlen14, IPv6loopback, hpv255, hB, hD, hE2, h252, h253] at h
    · simp [hlen, hn1, hB, hD, hn4, h252, h253] at h
  · intro h
    rcases h with h | ⟨hB, hC⟩ | ⟨hD, hE⟩ | hF | ⟨hB, hG⟩
    · simp [h]
    · simp [hlen, hlen14, IPv6loopback, hB, hC]
    · simp [hlen, hlen14, IPv6loopback, hD, hE]
    · apply ite_false_right
      simp [hlen, hF]
    · apply ite_false_right
      apply ite_false_right
      apply ite_false_right
      simp [hlen, hlen14, IPv6loopback, hB, hG]

/-- Claim C7 witness: the general characterisation applied to fe80::1. -/
theorem isPublicIPv6_classification_witness :
    isPublicIPv6 addrFe80 = false ↔
      addrFe80 = IPv6loopback
        ∨ (addrFe80.getD 0 0 = 0xfe ∧ (addrFe80.getD 1 0) &&& 0xc0 = 0x80)
        ∨ (addrFe80.getD 0 0 = 0xff ∧ (addrFe80.getD 1 0) &&& 0x0f = 0x02)
        ∨ ((addrFe80.getD 0 0) &&& 0xfe = 0xfc)
        ∨ (addrFe80.getD 0 0 = 0xfe ∧ (addrFe80.getD 1 0) &&& 0xc0 = 0xc0) :=
  isPublicIPv6_classification.2 addrFe80 (by decide) (by decide)

/-- Claim C3 counterexample: the upstream reply
"HTTP/1.1 403 Forbidden len=200" does not begin with a 200 status under
either reading of that phrase (literal prefix or status-line code field),
yet handleConnect hijacks the client connection and opens the tunnel
instead of returning 502, because the code only scans the reply for the
substring "200". -/
theorem connect_prefix_counterexample :
    specReplyBeginsWith200 reply403 = false ∧
    handleConnect true true true reply403 true = ConnectOutcome.tunnel ∧
    (handleConnect true true true reply403 true).statusCode = none ∧
    (handleConnect true true true reply403 true).hijacksClient = true := by
  refine ⟨by decide, ?_, ?_, ?_⟩ <;> decide

/-- Claim C3 as amended: with the upstream dial, CONNECT write and reply
read all succeeding, the caller receives 502 and the client connection
is never hijacked exactly when the reply does not contain the substring
"200"; and whenever the client connection is hijacked (the tunnel
outcome), the reply does contain "200". -/
theorem connect_contains200 (response : List Char) (hijackOk : Bool) :
    (containsGo response s200 = false →
        handleConnect true true true response hijackOk = ConnectOutcome.rejected502 ∧
        (∀ d w r : Bool, (handleConnect d w r response hijackOk).hijacksClient = false)) ∧
    (∀ d w r hj : Bool, (handleConnect d w r response hj).hijacksClient = true →
        containsGo response s200 = true ∧
        handleConnect d w r response hj = ConnectOutcome.tunnel) := by
  constructor
  · intro hc
    refine ⟨by simp [handleConnect, hc], ?_⟩
    intro d w r
    cases d <;> cases w <;> cases r <;>
      simp [handleConnect, hc, ConnectOutcome.hijacksClient]
  · intro d w r hj h
    by_cases hc : containsGo response s200 = true
    · refine ⟨hc, ?_⟩
      revert h
      cases d <;> cases w <;> cases r <;> cases hj <;>
        simp [handleConnect, hc, ConnectOutcome.hijacksClient]
    · exfalso
      revert h
      simp only [Bool.not_eq_true] at hc
      cases d <;> cases w <;> cases r <;> cases hj <;>
        simp [handleConnect, hc, ConnectOutcome.hijacksClient]

/-- Claim C3 witness: a reply without "200" is rejected with 502. -/
theorem connect_contains200_witness :
    handleConnect true true true reply404 true = ConnectOutcome.rejected502 :=
  ((connect_contains200 reply404 true).1 (by decide)).1

/-- Claim C5: UpdateProxies marks every endpoint it builds healthy,
builds exactly one endpoint per Running instance across all reports
(instances in any other status yield none), and its result does not
depend on the previous endpoint list, which is discarded wholesale. -/
theorem updateProxies_fullReplace :
    (∀ (lb : LoadBalancer) (now : Nat) (nodes : List NodeInfo) (e : ProxyEndpoint),
        e ∈ (lb.UpdateProxies now nodes).proxies → e.healthy = true) ∧
    (∀ (lb : LoadBalancer) (now : Nat) (nodes : List NodeInfo),
        (lb.UpdateProxies now nodes).proxies.length
          = ((nodes.flatMap fun n => n.proxies).countP
              fun p => p.status == ProxyStatus.running)) ∧
    (∀ (lb lb2 : LoadBalancer) (now : Nat) (nodes : List NodeInfo),
        (lb.UpdateProxies now nodes).proxies = (lb2.UpdateProxies now nodes).proxies) := by
  refine ⟨?_, ?_, ?_⟩
  · intro lb now nodes e he
    simp only [LoadBalancer.UpdateProxies, List.mem_flatMap, List.mem_filterMap] at he
    obtain ⟨node, hnode, proxy, hproxy, heq⟩ := he
    by_cases hs : proxy.status = ProxyStatus.running
    · rw [if_pos hs] at heq
      cases heq
      rfl
    · rw [if_neg hs] at heq
      cases heq
  · intro lb now nodes
    simp only [LoadBalancer.UpdateProxies]
    induction nodes with
    | nil => rfl
    | cons n ns ih =>
      simp only [List.flatMap_cons, List.countP_append, List.length_append, ih]
      have hinner : ∀ l : List ProxyInstance,
          (l.filterMap fun proxy =>
            if proxy.status = ProxyStatus.running then
              some { nodeID := n.nodeID, address := endpointAddress proxy
                     healthy := true, lastCheck := now }
            else (none : Option ProxyEndpoint)).length
            = l.countP fun p => p.status == ProxyStatus.running := by
        intro l
        induction l with
        | nil => rfl
        | cons p ps ihp =>
          by_cases hp : p.status = ProxyStatus.running <;>
            simp [List.filterMap_cons, List.countP_cons, hp, ihp]
      rw [hinner]
  · intro lb lb2 now nodes
    rfl

/-- Claim C5 witness: the healthy-flag clause applied to the endpoint
built from one Running instance. -/
theorem updateProxies_fullReplace_witness :
    ({ nodeID := "node", address := endpointAddress instRunning
       healthy := true, lastCheck := 7 } : ProxyEndpoint).healthy = true :=
  updateProxies_fullReplace.1 { proxies := [], roundRobin := 0 } 7
    [{ nodeID := "node", hostname := "host", region := "r"
       proxies := [instRunning], updatedAt := 0 }] _ (by decide)

/-- Claim C4: whenever the healthy subset is nonempty and the uint64
counter is in range, GetNextProxy returns the healthy endpoint at index
counter mod healthy count and bumps the counter by one (mod 2^64); and
with endpoints A, B, C all healthy and the counter at 0, six consecutive
selections yield A, B, C, A, B, C — each endpoint exactly twice, in the
fixed list order. -/
theorem getNextProxy_roundRobin :
    (∀ lb : LoadBalancer, lb.roundRobin < UINT64MOD →
        lb.proxies.filter (fun p => p.healthy) ≠ [] →
        lb.GetNextProxy
          = ({ lb with roundRobin := (lb.roundRobin + 1) % UINT64MOD },
             (lb.proxies.filter (fun p => p.healthy))[lb.roundRobin
                % (lb.proxies.filter (fun p => p.healthy)).length]?,
             none)) ∧
    pickSeq lbABC 6 = [some epA, some epB, some epC, some epA, some epB, some epC] := by
  constructor
  · intro lb hlt hne
    have hplen : ¬(lb.proxies.length = 0) := by
      intro h0
      rw [List.length_eq_zero] at h0
      rw [h0] at hne
      simp at hne
    have hhlen : ¬((lb.proxies.filter fun p => p.healthy).length = 0) := by
      intro h0
      exact hne (List.length_eq_zero.mp h0)
    have hidx : ((lb.roundRobin + 1) % UINT64MOD + (UINT64MOD - 1)) % UINT64MOD
        = lb.roundRobin := by
      by_cases hr : lb.roundRobin + 1 < UINT64MOD
      · rw [Nat.mod_eq_of_lt hr]
        have hsum : lb.roundRobin + 1 + (UINT64MOD - 1) = lb.roundRobin + UINT64MOD := by
          omega
        rw [hsum, Nat.add_mod_right, Nat.mod_eq_of_lt hlt]
      · have hrM : lb.roundRobin + 1 = UINT64MOD := by omega
        rw [hrM, Nat.mod_self, Nat.zero_add, Nat.mod_eq_of_lt (by omega)]
        omega
    simp only [LoadBalancer.GetNextProxy, if_neg hplen, if_neg hhlen, hidx]
  · decide

/-- Claim C4 witness: the general selection rule applied to the three
healthy endpoints with the counter at 0. -/
theorem getNextProxy_roundRobin_witness :
    lbABC.GetNextProxy
      = ({ lbABC with roundRobin := (lbABC.roundRobin + 1) % UINT64MOD },
         (lbABC.proxies.filter (fun p => p.healthy))[lbABC.roundRobin
            % (lbABC.proxies.filter (fun p => p.healthy)).length]?,
         none) :=
  getNextProxy_roundRobin.1 lbABC (Nat.two_pow_pos 64) (by decide)

/-- Claim C2 counterexample: a StartProxy call whose process stays alive
while every one of the five TCP probes fails leaves the returned
instance in Error status — but the error returned alongside it is nil,
not non-nil: the code only logs on the final failed attempt and then
executes `return instance, nil`. -/
theorem startProxy_nilError_counterexample :
    ((NewManager 10000 10002).StartProxy envNeverHealthy addr1).2.1.map ProxyInstance.status
        = some ProxyStatus.error ∧
    ((NewManager 10000 10002).StartProxy envNeverHealthy addr1).2.2 = none := by
  refine ⟨?_, ?_⟩ <;> decide

/-- Claim C2 as amended: past allocation, config write and spawn, if the
process stays alive and every probe attempt fails then the returned
instance has status Error and the returned error is nil; the error is
non-nil (the process-died failure) exactly in the other half of the
claim, when the process dies during verification, and the instance is
then also in Error status. -/
theorem startProxy_verification_outcome (m : Manager) (env : StartEnv) (a : IPv6Address)
    (hp : ¬((m.getNextPort).1 = 0))
    (hc : env.configWriteOk = true) (hs : env.spawnOk = true) :
    ((∀ i, env.alive i = true) → (∀ i, env.healthy i = false) →
        (m.StartProxy env a).2.1.map ProxyInstance.status = some ProxyStatus.error ∧
        (m.StartProxy env a).2.2 = none) ∧
    (env.alive 0 = false →
        (m.StartProxy env a).2.1.map ProxyInstance.status = some ProxyStatus.error ∧
        (m.StartProxy env a).2.2 = some StartErr.processDied) := by
  have hrange : List.range retries = [0, 1, 2, 3, 4] := rfl
  constructor
  · intro hal hhe
    have hv : verifyRun env = (ProxyStatus.error, none) := by
      simp [verifyRun, hrange, verifyAttempts, retries,
        hal 0, hal 1, hal 2, hal 3, hal 4, hhe 0, hhe 1, hhe 2, hhe 3, hhe 4]
    constructor <;> simp [Manager.StartProxy, hp, hc, hs, hv]
  · intro h0
    have hv : verifyRun env = (ProxyStatus.error, some StartErr.processDied) := by
      simp [verifyRun, hrange, verifyAttempts, h0]
    constructor <;> simp [Manager.StartProxy, hp, hc, hs, hv]

/-- Claim C2 witness: the process-died half on a fresh manager with an
environment whose process is dead at the first check. -/
theorem startProxy_verification_outcome_witness :
    ((NewManager 10000 10002).StartProxy
        { configWriteOk := true, spawnOk := true, alive := fun _ => false
          healthy := fun _ => true, now := 0 } addr1).2.2
      = some StartErr.processDied :=
  ((startProxy_verification_outcome (NewManager 10000 10002)
      { configWriteOk := true, spawnOk := true, alive := fun _ => false
        healthy := fun _ => true, now := 0 } addr1
      (by decide) rfl rfl).2 rfl).2

/-- Claim C6 counterexample: stopping a known instance does not remove it
from the instance table — it is still there (marked Stopped) after
StopProxy returns; and the port of a crashed (Error status) instance is
not kept reserved: once the cursor wraps, getNextPort hands the same
port out again because only Running instances are excluded. -/
theorem stopProxy_keepsInstance_counterexample :
    ((mgrOneRunning.StopProxy ("2001:db8::1", 10000)).2 = none ∧
     ¬(mapLookup ("2001:db8::1", 10000)
          (mgrOneRunning.StopProxy ("2001:db8::1", 10000)).1.instances = none)) ∧
    (mgrCrashed.getNextPort).1 = 1 := by
  refine ⟨⟨?_, ?_⟩, ?_⟩ <;> decide

/-- Claim C6 as amended: a ProxyInstance is never removed from the
instance table. StopProxy on a known id returns no error, marks the
instance Stopped in the table (leaving every other entry unchanged) and
removes only its live-process entry; the watcher's exit step on a
Running instance marks it Error and leaves it in the table, where
GetInstances still reports it. -/
theorem instance_table_persistence (m : Manager) (instId : InstanceId)
    (inst : ProxyInstance) (h : mapLookup instId m.instances = some inst) :
    ((m.StopProxy instId).2 = none ∧
     mapLookup instId (m.StopProxy instId).1.instances
        = some { inst with status := ProxyStatus.stopped } ∧
     instId ∉ (m.StopProxy instId).1.processes ∧
     (∀ k2, k2 ≠ instId →
        mapLookup k2 (m.StopProxy instId).1.instances = mapLookup k2 m.instances)) ∧
    (inst.status = ProxyStatus.running →
        mapLookup instId (m.monitorProcessExit instId).instances
            = some { inst with status := ProxyStatus.error } ∧
        { inst with status := ProxyStatus.error }
            ∈ (m.monitorProcessExit instId).GetInstances) := by
  constructor
  · refine ⟨?_, ?_, ?_, ?_⟩
    · simp only [Manager.StopProxy, h]
    · simp only [Manager.StopProxy, h]
      exact mapLookup_insert_self instId _ m.instances
    · simp only [Manager.StopProxy, h]
      by_cases hmem : instId ∈ m.processes
      · simp [hmem, List.mem_filter]
      · simp [hmem]
    · intro k2 hk2
      simp only [Manager.StopProxy, h]
      exact mapLookup_insert_ne instId k2 _ m.instances hk2
  · intro hrun
    constructor
    · simp only [Manager.monitorProcessExit, h, hrun, if_pos]
      exact mapLookup_insert_self instId _ m.instances
    · apply mapLookup_mem_values instId
      simp only [Manager.monitorProcessExit, h, hrun, if_pos]
      exact mapLookup_insert_self instId _ m.instances

/-- Claim C6 witness: the stop half applied to the one-instance manager. -/
theorem instance_table_persistence_witness :
    mapLookup ("2001:db8::1", 10000)
        (mgrOneRunning.StopProxy ("2001:db8::1", 10000)).1.instances
      = some { instRunning with status := ProxyStatus.stopped } :=
  (instance_table_persistence mgrOneRunning ("2001:db8::1", 10000) instRunning
      (by decide)).1.2.1

/-- A fresh manager satisfies the allocation invariant after zero calls. -/
theorem allocInv_new (s e : Nat) : AllocInv s e 0 (NewManager s e) := by
  refine ⟨rfl, rfl, rfl, ?_, ?_⟩
  · intro p hp1 hp2
    omega
  · intro pr hpr
    simp [NewManager] at hpr

/-- Under the invariant, with at least one port left below the top of the
range, the allocator hands out exactly the cursor position and advances
the cursor past it. -/
theorem getNextPort_at_cursor (s e k : Nat) (m : Manager) (hk : s + k ≤ e)
    (hinv : AllocInv s e k m) :
    m.getNextPort = (s + k, { m with currentPort := s + k + 1 }) := by
  obtain ⟨hsp, hep, hcp, hfull, hport⟩ := hinv
  have hfree : portInUse m (s + k) = false := by
    rw [portInUse, List.any_eq_false]
    intro pr hpr
    have h1 := (hport pr hpr).1
    have hne : ¬(pr.2.port = s + k) := by omega
    simp [hne]
  have hlen1 : m.endPort + 1 - m.currentPort = (e - (s + k)) + 1 := by
    rw [hep, hcp]
    omega
  have hrange : List.range' m.currentPort (m.endPort + 1 - m.currentPort)
      = (s + k) :: List.range' (s + k + 1) (e - (s + k)) := by
    rw [hlen1, hcp]
    rfl
  unfold Manager.getNextPort
  rw [hrange, findFreeFrom, hfree]
  simp

/-- Shape of a StartProxy call whose allocation, config write and spawn
all succeed: the instance built from the verification outcome is
registered under its (address, port) key, the process entry is added,
and the verification error (if any) is returned with the instance. -/
theorem startProxy_success_shape (m m1 : Manager) (p : Nat) (env : StartEnv)
    (a : IPv6Address) (hgp : m.getNextPort = (p, m1)) (hpz : ¬(p = 0))
    (hc : env.configWriteOk = true) (hsp : env.spawnOk = true) :
    m.StartProxy env a
      = ({ m1 with
            instances := mapInsert (a.ip, p)
              { id := (a.ip, p), ipv6 := a, port := p
                status := (verifyRun env).1, startedAt := env.now
                lastChecked := env.now, metrics := emptyMetrics } m1.instances
            processes := (a.ip, p)
              :: m1.processes.filter (fun k2 => decide (k2 ≠ (a.ip, p))) },
         some { id := (a.ip, p), ipv6 := a, port := p
                status := (verifyRun env).1, startedAt := env.now
                lastChecked := env.now, metrics := emptyMetrics },
         (verifyRun env).2) := by
  simp [Manager.StartProxy, hgp, hc, hsp, hpz]

/-- One clean start under the invariant returns the cursor port with a
Running instance and no error, and re-establishes the invariant for
k + 1 calls. -/
theorem startProxy_step (s e k : Nat) (m : Manager) (env : StartEnv) (a : IPv6Address)
    (hs : 1 ≤ s) (hk : s + k ≤ e) (hinv : AllocInv s e k m) (hg : goodStart env) :
    (m.StartProxy env a).2.1.map ProxyInstance.port = some (s + k) ∧
    (m.StartProxy env a).2.1.map ProxyInstance.status = some ProxyStatus.running ∧
    (m.StartProxy env a).2.2 = none ∧
    AllocInv s e (k + 1) (m.StartProxy env a).1 := by
  obtain ⟨hc, hsp2, hv⟩ := hg
  have hgp := getNextPort_at_cursor s e k m hk hinv
  obtain ⟨hsp, hep, hcp, hfull, hport⟩ := hinv
  have hpz : ¬(s + k = 0) := by omega
  have hshape := startProxy_success_shape m { m with currentPort := s + k + 1 }
    (s + k) env a hgp hpz hc hsp2
  rw [hshape]
  refine ⟨by simp, by simp [hv], by simp [hv], by simp [hsp], by simp [hep],
    by simp; omega, ?_, ?_⟩
  · intro p hp1 hp2
    by_cases hpk : p = s + k
    · rw [hpk, portInUse]
      simp [mapInsert, hv]
    · have hpu := hfull p hp1 (by omega)
      rw [portInUse, List.any_eq_true] at hpu
      obtain ⟨pr, hpr, hpred⟩ := hpu
      have hprport : pr.2.port = p := by
        simp only [Bool.and_eq_true, beq_iff_eq] at hpred
        exact hpred.1
      have hkey : ¬(pr.1 = (a.ip, s + k)) := by
        intro hcontra
        have h2 := (hport pr hpr).2.1
        rw [hcontra] at h2
        simp at h2
        omega
      rw [portInUse, List.any_eq_true]
      refine ⟨pr, ?_, hpred⟩
      simp only [mapInsert, List.mem_cons, List.mem_filter]
      right
      exact ⟨hpr, by simp [hkey]⟩
  · intro pr hpr
    simp only [mapInsert, List.mem_cons, List.mem_filter] at hpr
    rcases hpr with hpr | ⟨hpr, _⟩
    · subst hpr
      refine ⟨?_, rfl, ?_⟩
      · show s + k < s + (k + 1)
        omega
      · show (verifyRun env).1 = ProxyStatus.running
        rw [hv]
    · have h3 := hport pr hpr
      exact ⟨by omega, h3.2.1, h3.2.2⟩

/-- The allocation invariant holds after any number of clean starts that
stays within the size of the configured range. -/
theorem allocInv_iterStart (s e : Nat) (envs : Nat → StartEnv)
    (addrs : Nat → IPv6Address) (hs : 1 ≤ s) (hg : ∀ k, goodStart (envs k)) :
    ∀ k, s + k ≤ e + 1 → AllocInv s e k (iterStart s e envs addrs k) := by
  intro k
  induction k with
  | zero => intro _; exact allocInv_new s e
  | succ k ih =>
    intro hk
    exact (startProxy_step s e k (iterStart s e envs addrs k) (envs k) (addrs k)
      hs (by omega) (ih (by omega)) (hg k)).2.2.2

/-- The scan finds nothing when every candidate port is in use. -/
theorem findFreeFrom_none (m : Manager) :
    ∀ l : List Nat, (∀ i ∈ l, portInUse m i = true) → findFreeFrom m l = none := by
  intro l
  induction l with
  | nil => intro _; rfl
  | cons i rest ih =>
    intro h
    rw [findFreeFrom, h i (by simp)]
    exact ih (fun j hj => h j (by simp [hj]))

/-- Once the invariant covers the whole range, the allocator returns its
sentinel 0 and leaves the state untouched. -/
theorem getNextPort_exhausted (s e : Nat) (m : Manager) (hse : s ≤ e)
    (hinv : AllocInv s e (e + 1 - s) m) :
    m.getNextPort = (0, m) := by
  obtain ⟨hsp, hep, hcp, hfull, hport⟩ := hinv
  have hcp1 : m.currentPort = e + 1 := by omega
  have h1 : List.range' m.currentPort (m.endPort + 1 - m.currentPort) = [] := by
    rw [hcp1, hep]
    have h0 : e + 1 - (e + 1) = 0 := by omega
    rw [h0]
    rfl
  have h2 : findFreeFrom m (List.range' m.startPort (m.currentPort - m.startPort))
      = none := by
    apply findFreeFrom_none
    intro i hi
    rw [hsp, hcp1] at hi
    rw [List.mem_range'_1] at hi
    exact hfull i hi.1 (by omega)
  unfold Manager.getNextPort
  rw [h1, h2]
  rfl

/-- StartProxy fails with the no-available-ports error as soon as the
allocator returns its sentinel. -/
theorem startProxy_afterExhaustion (m : Manager) (env : StartEnv) (a : IPv6Address)
    (h0 : m.getNextPort = (0, m)) :
    m.StartProxy env a = (m, none, some StartErr.noAvailablePorts) := by
  simp [Manager.StartProxy, h0]

/-- Claim C1 as amended: on a configured range [s, e] whose low end is at
least 1, for every sequence of clean StartProxy calls (config written,
daemon spawned, verification reaching Running), the first e - s + 1
calls return the distinct ports s, s + 1, ..., e — each in range, each
instance Running, each call error-free — every instance after those
calls is still Running, and the next call fails with the
no-available-ports (PortExhausted) error. For a range whose low end is
0 the statement fails, because the allocator's sentinel is port 0. -/
theorem allocation_first_N (s e : Nat) (envs : Nat → StartEnv)
    (addrs : Nat → IPv6Address) (hs : 1 ≤ s) (hse : s ≤ e)
    (hg : ∀ k, goodStart (envs k)) :
    (∀ k, k ≤ e - s →
        ((iterStart s e envs addrs k).StartProxy (envs k) (addrs k)).2.1.map
            ProxyInstance.port = some (s + k) ∧
        s ≤ s + k ∧ s + k ≤ e ∧
        ((iterStart s e envs addrs k).StartProxy (envs k) (addrs k)).2.1.map
            ProxyInstance.status = some ProxyStatus.running ∧
        ((iterStart s e envs addrs k).StartProxy (envs k) (addrs k)).2.2 = none) ∧
    (∀ k1 k2 : Nat, k1 ≠ k2 → s + k1 ≠ s + k2) ∧
    (∀ pr ∈ (iterStart s e envs addrs (e + 1 - s)).instances,
        pr.2.status = ProxyStatus.running) ∧
    ((iterStart s e envs addrs (e + 1 - s)).StartProxy (envs (e + 1 - s))
        (addrs (e + 1 - s)))
      = (iterStart s e envs addrs (e + 1 - s), none, some StartErr.noAvailablePorts) := by
  have hinvN := allocInv_iterStart s e envs addrs hs hg (e + 1 - s) (by omega)
  refine ⟨?_, ?_, ?_, ?_⟩
  · intro k hk
    have hinv := allocInv_iterStart s e envs addrs hs hg k (by omega)
    have hstep := startProxy_step s e k (iterStart s e envs addrs k) (envs k)
      (addrs k) hs (by omega) hinv (hg k)
    exact ⟨hstep.1, by omega, by omega, hstep.2.1, hstep.2.2.1⟩
  · intro k1 k2 hne
    omega
  · intro pr hpr
    exact (hinvN.2.2.2.2 pr hpr).2.2
  · exact startProxy_afterExhaustion _ _ _ (getNextPort_exhausted s e _ hse hinvN)

/-- Claim C1 counterexample: on the size-1 range [0, 0] the very first
StartProxy call — with a fully successful environment — returns no port
at all but the PortExhausted sentinel failure, because the allocator
uses port 0 both as a real range member and as its failure sentinel; so
the first N calls do not return N distinct ports for every configured
range. -/
theorem allocation_sentinel_counterexample :
    ((NewManager 0 0).StartProxy envGood addr1).2
      = (none, some StartErr.noAvailablePorts) := by
  decide

/-- Claim C1 witness: on the range [1, 2] the third call (after the two
clean starts that exhaust the range) fails with the no-available-ports
error. -/
theorem allocation_first_N_witness :
    ((iterStart 1 2 envsGood addrsConst (2 + 1 - 1)).StartProxy (envsGood (2 + 1 - 1))
        (addrsConst (2 + 1 - 1)))
      = (iterStart 1 2 envsGood addrsConst (2 + 1 - 1), none,
         some StartErr.noAvailablePorts) :=
  (allocation_first_N 1 2 envsGood addrsConst (by decide) (by decide)
      (fun _ => ⟨rfl, rfl, rfl⟩)).2.2.2

end ProxyV6
